import Mathlib

/- Verification of the ghostwarden topology-to-kernel reconciliation engine.
   Shallow embedding of the core crates (gw-core planner/validator/executor/
   rollback, gw-nft ruleset synthesizer, gw-cli apply gating) as pure Lean
   functions, followed by theorems about the embedded code.

   Modelling conventions:
   - Rust `HashMap` fields become association lists in iteration order.
   - Rust machine integers become `Nat`/`Int`; where Rust release-mode
     wrapping matters (u32 shifts in the CIDR overlap check) the reductions
     are written out explicitly with `% 2 ^ 32` and shift-amount masking.
   - Fallible Rust functions (`anyhow::Result`) become `Except String`.
   - Effectful inputs (the clock in `RollbackRecord::new`) are passed
     explicitly as arguments. -/

set_option autoImplicit false

namespace Ghostwarden

/-! ## String helpers: models of the Rust std string operations the sources use -/

/-- Model of `u8::to_ascii_lowercase` applied per character
    (`str::to_ascii_lowercase`). -/
def asciiLowerChar (c : Char) : Char :=
  if 'A' ≤ c ∧ c ≤ 'Z' then Char.ofNat (c.toNat + 32) else c

/-- Model of `str::to_ascii_lowercase`. -/
def asciiLowerStr (s : String) : String :=
  ⟨s.data.map asciiLowerChar⟩

/-- Model of `str::split(sep)` collected into a vector (on char lists). -/
def splitOnChar (sep : Char) : List Char → List (List Char)
  | [] => [[]]
  | c :: rest =>
    let r := splitOnChar sep rest
    if c = sep then [] :: r
    else
      match r with
      | h :: t => (c :: h) :: t
      | [] => [[c]]

/-- Model of `str::rfind(sep)` followed by splitting at that index with the
    separator dropped: returns `(before, after)` around the LAST occurrence
    of `sep`, or `none` if `sep` does not occur. -/
def splitAtLastChar (sep : Char) : List Char → Option (List Char × List Char)
  | [] => none
  | c :: rest =>
    match splitAtLastChar sep rest with
    | some (a, b) => some (c :: a, b)
    | none => if c = sep then some ([], rest) else none

/-- ASCII whitespace test used to model `str::trim` on the inputs the
    sources see (the sources never receive non-ASCII whitespace). -/
def isAsciiSpace (c : Char) : Bool :=
  c == ' ' || c == '\t' || c == '\n' || c == '\r'

/-- Model of `str::trim` (ASCII whitespace). -/
def asciiTrim (l : List Char) : List Char :=
  ((l.dropWhile isAsciiSpace).reverse.dropWhile isAsciiSpace).reverse

/-- Digit-string fold used by the integer parsers. -/
def digitsVal (l : List Char) : Nat :=
  l.foldl (fun acc c => acc * 10 + (c.toNat - 48)) 0

/-- Model of Rust `str::parse::<uN>()`: optional leading `+`, one or more
    ASCII digits, value within `bound` (65535 for u16, 255 for u8). -/
def parseNatBounded (bound : Nat) (l : List Char) : Option Nat :=
  let l := match l with
    | '+' :: rest => rest
    | other => other
  if l.isEmpty then none
  else if l.all Char.isDigit then
    let n := digitsVal l
    if n ≤ bound then some n else none
  else none

/-- Model of one dotted-quad component of `Ipv4Addr::from_str`: one to three
    ASCII digits, no leading zero (except `0` itself), value at most 255. -/
def parseOctet (l : List Char) : Option Nat :=
  if l.isEmpty then none
  else if ¬ l.all Char.isDigit then none
  else if l.length > 1 ∧ l.head? = some '0' then none
  else
    let n := digitsVal l
    if n ≤ 255 then some n else none

/-- Model of `Ipv4Addr::from_str` on char lists: exactly four octets
    separated by dots. -/
def parseIpv4L (l : List Char) : Option (Nat × Nat × Nat × Nat) :=
  match (splitOnChar '.' l).map parseOctet with
  | [some a, some b, some c, some d] => some (a, b, c, d)
  | _ => none

/-- Model of `Ipv4Addr::from_str`. -/
def parseIpv4 (s : String) : Option (Nat × Nat × Nat × Nat) :=
  parseIpv4L s.data

/-- The u32 value of a dotted quad (`u32::from(Ipv4Addr)`). -/
def ipv4ToU32 (q : Nat × Nat × Nat × Nat) : Nat :=
  ((q.1 * 256 + q.2.1) * 256 + q.2.2.1) * 256 + q.2.2.2

/-- Hex digit value for the IPv6 group parser. -/
def hexVal (c : Char) : Option Nat :=
  if '0' ≤ c ∧ c ≤ '9' then some (c.toNat - 48)
  else if 'a' ≤ c ∧ c ≤ 'f' then some (c.toNat - 87)
  else if 'A' ≤ c ∧ c ≤ 'F' then some (c.toNat - 55)
  else none

/-- One IPv6 group: one to four hex digits. -/
def parseHexGroup (l : List Char) : Option Nat :=
  if l.isEmpty ∨ l.length > 4 then none
  else
    l.foldl
      (fun acc c =>
        match acc, hexVal c with
        | some v, some h => some (v * 16 + h)
        | _, _ => none)
      (some 0)

/-- Locate the first `::` in a char list, returning the text before and
    after it. -/
def breakDoubleColon : List Char → Option (List Char × List Char)
  | [] => none
  | [_] => none
  | a :: b :: rest =>
    if a = ':' ∧ b = ':' then some ([], rest)
    else
      match breakDoubleColon (b :: rest) with
      | some (l, r) => some (a :: l, r)
      | none => none

/-- Model of `Ipv6Addr::from_str` restricted to the plain-group grammar
    (`h:h:...:h` with an optional single `::` abbreviation). The embedded
    IPv4 tail and scope-id forms are not modelled; no input exercised by the
    claims uses them. -/
def parseIpv6 (s : String) : Option (List Nat) :=
  let l := s.data
  match breakDoubleColon l with
  | some (lft, rgt) =>
    let lparts := if lft.isEmpty then [] else splitOnChar ':' lft
    let rparts := if rgt.isEmpty then [] else splitOnChar ':' rgt
    match lparts.mapM parseHexGroup, rparts.mapM parseHexGroup with
    | some lg, some rg =>
      if lg.length + rg.length ≤ 7 then
        some (lg ++ List.replicate (8 - lg.length - rg.length) 0 ++ rg)
      else none
    | _, _ => none
  | none =>
    let parts := splitOnChar ':' l
    if parts.length = 8 then parts.mapM parseHexGroup else none

/-- Model of `std::net::IpAddr`. -/
inductive IpAddr
  | v4 (a b c d : Nat)
  | v6 (groups : List Nat)
  deriving DecidableEq, Repr

/-- Model of `IpAddr::from_str` (IPv4 first, then IPv6, as in std). -/
def parseIpAddr (s : String) : Option IpAddr :=
  match parseIpv4 s with
  | some (a, b, c, d) => some (IpAddr.v4 a b c d)
  | none =>
    match parseIpv6 s with
    | some gs => some (IpAddr.v6 gs)
    | none => none

/-- Lowercase hex digit character. -/
def hexDigitChar (n : Nat) : Char :=
  if n < 10 then Char.ofNat (48 + n) else Char.ofNat (87 + n)

/-- Render an IPv6 group (at most four hex digits, leading zeros trimmed). -/
def hexGroupStr (n : Nat) : String :=
  let ds := [n / 4096 % 16, n / 256 % 16, n / 16 % 16]
  let lead := (ds.dropWhile (· = 0)).map hexDigitChar
  ⟨lead ++ [hexDigitChar (n % 16)]⟩

/-- Model of `IpAddr::to_string`. The IPv6 arm renders plain colon-joined
    groups without the `::` compression of std Display; only the IPv4 arm is
    exercised by the claims. -/
def ipAddrToString : IpAddr → String
  | IpAddr.v4 a b c d =>
    toString a ++ "." ++ toString b ++ "." ++ toString c ++ "." ++ toString d
  | IpAddr.v6 gs => String.intercalate ":" (gs.map hexGroupStr)

/-- Fail-fast sequential map, the semantics of Rust
    `iter().map(f).collect::<Result<Vec<_>, _>>()`. -/
def exceptMapM {α β : Type} (f : α → Except String β) : List α → Except String (List β)
  | [] => Except.ok []
  | x :: xs => do
    let b ← f x
    let bs ← exceptMapM f xs
    Except.ok (b :: bs)

/-- Association-list lookup modelling `HashMap::get` (first binding wins;
    the maps the sources build never hold duplicate keys). -/
def assocLookup {β : Type} (m : List (String × β)) (k : String) : Option β :=
  match m with
  | [] => none
  | (k2, v) :: rest => if k2 = k then some v else assocLookup rest k

/-! ## Data model: `gw-core/src/policy.rs` and `gw-core/src/topology.rs` -/

/-- Source `policy::Protocol`. -/
inductive Protocol
  | tcp
  | udp
  | icmp
  deriving DecidableEq, Repr

/-- Source `policy::Action` (renamed: the planner also has an `Action`). -/
inductive PolicyAction
  | accept
  | drop
  | reject
  deriving DecidableEq, Repr

/-- Source `policy::Service`. -/
structure Service where
  protocol : Protocol
  port : Nat
  source : Option String
  deriving DecidableEq, Repr

/-- Source `policy::PolicyProfile`. -/
structure PolicyProfile where
  name : String
  description : String
  allowed_ingress_cidrs : List String
  allowed_egress_cidrs : List String
  services : List Service
  default_action : PolicyAction
  deriving DecidableEq, Repr

/-- Source `topology::DnsConfig`. -/
structure DnsConfig where
  enabled : Bool
  zones : List String
  deriving DecidableEq, Repr

/-- Source `topology::PortForward`. -/
structure PortForward where
  public : String
  dst : String
  deriving DecidableEq, Repr

/-- Source `topology::RoutedNetwork`. -/
structure RoutedNetwork where
  cidr : String
  gw_ip : IpAddr
  dhcp : Bool
  dns : Option DnsConfig
  masq_out : Option String
  forwards : List PortForward
  policy_profile : Option String
  deriving DecidableEq, Repr

/-- Source `topology::BridgeNetwork`. -/
structure BridgeNetwork where
  iface : String
  vlan : Option Nat
  policy_profile : Option String
  deriving DecidableEq, Repr

/-- Source `topology::VxlanNetwork`. -/
structure VxlanNetwork where
  vni : Nat
  peers : List IpAddr
  bridge : String
  deriving DecidableEq, Repr

/-- Source `topology::Network`. -/
inductive Network
  | routed (r : RoutedNetwork)
  | bridge (b : BridgeNetwork)
  | vxlan (v : VxlanNetwork)
  deriving DecidableEq, Repr

/-- Source `topology::Topology`; the two `HashMap`s become association lists
    in iteration order. -/
structure Topology where
  version : Nat
  interfaces : List (String × String)
  networks : List (String × Network)
  deriving DecidableEq, Repr

/-! ## Planner: `gw-core/src/planner.rs` -/

/-- Source `planner::Action`. -/
inductive Action
  | CreateBridge (name : String) (cidr : Option String)
  | AddAddress (iface : String) (addr : String)
  | EnableForwarding (iface : String)
  | CreateNftRuleset (table : String) (policy_profile : Option String)
  | StartDnsmasq (config_path : String)
  | CreateVlan (parent : String) (vlan_id : Nat) (name : String)
  | AttachVlanToBridge (vlan : String) (bridge : String)
  deriving DecidableEq, Repr

/-- Source `planner::Plan`. -/
structure Plan where
  actions : List Action
  deriving DecidableEq, Repr

/-- One iteration of the `Plan::from_topology` loop body: the pushes
    performed for a single `(net_name, network)` entry, appended to the
    actions accumulated so far. -/
def plan_step (t : Topology) (acts : List Action) (entry : String × Network) : List Action :=
  match entry.2 with
  | Network.routed r =>
    let acts := acts ++ [Action.CreateBridge ("br-" ++ entry.1) (some r.cidr)]
    let acts := acts ++ [Action.AddAddress ("br-" ++ entry.1) r.cidr]
    let acts := acts ++ [Action.EnableForwarding ("br-" ++ entry.1)]
    let acts := acts ++ [Action.CreateNftRuleset ("gw-" ++ entry.1) r.policy_profile]
    if r.dhcp then
      acts ++ [Action.StartDnsmasq ("/etc/dnsmasq.d/gw-" ++ entry.1 ++ ".conf")]
    else acts
  | Network.bridge b =>
    let acts :=
      match b.vlan, assocLookup t.interfaces "uplink" with
      | some vlan_id, some uplink =>
        let vlan_name := uplink ++ "." ++ toString vlan_id
        acts ++ [Action.CreateVlan uplink vlan_id vlan_name,
                 Action.AttachVlanToBridge vlan_name b.iface]
      | _, _ => acts
    acts ++ [Action.CreateBridge b.iface none]
  | Network.vxlan _ => acts

/-- Source `Plan::from_topology`. The Rust function returns
    `anyhow::Result` but no path in its body produces an error, so the
    embedding is total. Each `plan.actions.push(...)` becomes a
    one-element append. -/
def Plan.from_topology (t : Topology) : Plan :=
  Plan.mk <| t.networks.foldl (plan_step t) []

/-! ## Executor: `gw-core/src/executor.rs` -/

/-- Source `executor::RollbackOp`. -/
inductive RollbackOp
  | DeleteBridge (name : String)
  | RemoveAddress (iface : String) (addr : String)
  | RestoreNft (table : String) (snapshot : Option String)
  | DeleteDnsmasqConfig (path : String)
  | DeleteVlan (name : String)
  deriving DecidableEq, Repr

/-- Source `executor::ExecutionContext`; `nft_snapshots` is the `HashMap`
    as an association list. -/
structure ExecutionContext where
  actions_completed : List Action
  rollback_enabled : Bool
  nft_snapshots : List (String × Option String)
  plan : Option Plan
  deriving DecidableEq, Repr

/-- Source `ExecutionContext::nft_snapshot`. -/
def ExecutionContext.nft_snapshot (ctx : ExecutionContext) (table : String) :
    Option (Option String) :=
  assocLookup ctx.nft_snapshots table

/-- One arm of the `rollback_operations` match: the push (or no push)
    performed for a single recorded action. -/
def ExecutionContext.rollback_step (ctx : ExecutionContext) (ops : List RollbackOp)
    (action : Action) : List RollbackOp :=
  match action with
  | Action.CreateBridge name _ => ops ++ [RollbackOp.DeleteBridge name]
  | Action.AddAddress iface addr => ops ++ [RollbackOp.RemoveAddress iface addr]
  | Action.CreateNftRuleset table _ =>
    ops ++ [RollbackOp.RestoreNft table ((ctx.nft_snapshot table).getD none)]
  | Action.StartDnsmasq config_path => ops ++ [RollbackOp.DeleteDnsmasqConfig config_path]
  | Action.CreateVlan _ _ name => ops ++ [RollbackOp.DeleteVlan name]
  | Action.EnableForwarding _ => ops
  | Action.AttachVlanToBridge _ _ => ops

/-- Source `ExecutionContext::rollback_operations`: walk `actions_completed`
    in reverse, pushing the inverse op for each action. -/
def ExecutionContext.rollback_operations (ctx : ExecutionContext) : List RollbackOp :=
  ctx.actions_completed.reverse.foldl ctx.rollback_step []

/-! ## Rollback record: `gw-core/src/rollback.rs` -/

/-- Source `rollback::RollbackRecord`. -/
structure RollbackRecord where
  created_at : Nat
  plan : Option Plan
  actions : List Action
  nft_snapshots : List (String × Option String)
  deriving DecidableEq, Repr

/-- Source `RollbackRecord::new`; the wall-clock read becomes the explicit
    `now` argument. -/
def RollbackRecord.new (now : Nat) (plan : Option Plan) (actions : List Action)
    (nft_snapshots : List (String × Option String)) : RollbackRecord :=
  { created_at := now, plan := plan, actions := actions, nft_snapshots := nft_snapshots }

/-- Source `ExecutionContext::to_rollback_record`. -/
def ExecutionContext.to_rollback_record (ctx : ExecutionContext) (now : Nat) :
    RollbackRecord :=
  RollbackRecord.new now ctx.plan ctx.actions_completed ctx.nft_snapshots

/-- Source `ExecutionContext::from_rollback_record`. -/
def ExecutionContext.from_rollback_record (record : RollbackRecord) : ExecutionContext :=
  { actions_completed := record.actions
    rollback_enabled := true
    nft_snapshots := record.nft_snapshots
    plan := record.plan }

/-! ## Validator: `gw-core/src/validator.rs` -/

/-- Source `validator::ValidationWarning`. -/
inductive ValidationWarning
  | CidrOverlap (net1 cidr1 net2 cidr2 : String)
  | InvalidPort (network port_spec reason : String)
  | InvalidDestination (network dst_spec reason : String)
  | InvalidCidr (network cidr reason : String)
  | GatewayNotInCidr (network gateway cidr reason : String)
  | DuplicateInterfaceName (name : String) (networks : List String)
  deriving DecidableEq, Repr

/-- Source `ValidationWarning::is_error`. -/
def ValidationWarning.is_error : ValidationWarning → Bool
  | ValidationWarning.InvalidPort .. => true
  | ValidationWarning.InvalidDestination .. => true
  | ValidationWarning.InvalidCidr .. => true
  | ValidationWarning.GatewayNotInCidr .. => true
  | ValidationWarning.CidrOverlap .. => false
  | ValidationWarning.DuplicateInterfaceName .. => false

/-- Largest u32 value, `!0u32`. -/
def u32max : Nat := 4294967295

/-- Rust release-mode `u32 << amt`: the shift amount is masked modulo 32 and
    the result truncated to 32 bits. -/
def u32shl (x amt : Nat) : Nat := (x <<< (amt % 32)) % 2 ^ 32

/-- Rust release-mode wrapping `32u8 - pfx` for a parsed u8 prefix
    (`pfx ≤ 255`). -/
def sub8from32 (pfx : Nat) : Nat := (288 - pfx % 256) % 256

namespace TopologyValidator

/-- Source `TopologyValidator::cidrs_overlap`: parse both CIDRs as
    IPv4/u8-prefix (bailing on malformed input), then compare the network
    addresses under the mask of the smaller prefix. -/
def cidrs_overlap (cidr1 cidr2 : String) : Except String Bool :=
  match splitOnChar '/' cidr1.data with
  | [ip1s, pfx1s] =>
    match parseIpv4L ip1s with
    | none => Except.error ("Invalid IP in CIDR: " ++ cidr1)
    | some q1 =>
      match parseNatBounded 255 pfx1s with
      | none => Except.error ("Invalid prefix in CIDR: " ++ cidr1)
      | some pfx1 =>
        match splitOnChar '/' cidr2.data with
        | [ip2s, pfx2s] =>
          match parseIpv4L ip2s with
          | none => Except.error ("Invalid IP in CIDR: " ++ cidr2)
          | some q2 =>
            match parseNatBounded 255 pfx2s with
            | none => Except.error ("Invalid prefix in CIDR: " ++ cidr2)
            | some pfx2 =>
              let mask1 := u32shl u32max (sub8from32 pfx1)
              let mask2 := u32shl u32max (sub8from32 pfx2)
              let net1 := ipv4ToU32 q1 &&& mask1
              let net2 := ipv4ToU32 q2 &&& mask2
              let minPfx := min pfx1 pfx2
              let smallerMask := u32shl u32max (sub8from32 minPfx)
              Except.ok ((net1 &&& smallerMask) == (net2 &&& smallerMask))
        | _ => Except.error ("Invalid CIDR format: " ++ cidr2)
  | _ => Except.error ("Invalid CIDR format: " ++ cidr1)

/-- Inner loop of `check_cidr_overlaps`: test one collected CIDR against
    every later one, in order. -/
def overlapsAgainst (nc : String × String) :
    List (String × String) → Except String (List ValidationWarning)
  | [] => Except.ok []
  | (n2, c2) :: rest => do
    let b ← cidrs_overlap nc.2 c2
    let ws ← overlapsAgainst nc rest
    Except.ok ((if b then [ValidationWarning.CidrOverlap nc.1 nc.2 n2 c2] else []) ++ ws)

/-- Outer pair loop of `check_cidr_overlaps` (`for i`, `for j in i+1..`). -/
def overlapPairs : List (String × String) → Except String (List ValidationWarning)
  | [] => Except.ok []
  | nc :: rest => do
    let ws1 ← overlapsAgainst nc rest
    let ws2 ← overlapPairs rest
    Except.ok (ws1 ++ ws2)

/-- Source `TopologyValidator::check_cidr_overlaps`. -/
def check_cidr_overlaps (t : Topology) : Except String (List ValidationWarning) :=
  let cidrs := t.networks.foldl
    (fun acc e =>
      match e.2 with
      | Network.routed r => acc ++ [(e.1, r.cidr)]
      | _ => acc)
    []
  overlapPairs cidrs

/-- Source `TopologyValidator::validate_port_spec`. -/
def validate_port_spec (spec : String) : Except String Unit :=
  let without_proto := ((splitOnChar '/' spec.data).headD spec.data)
  let parts := (splitOnChar ':' without_proto).reverse
  match parts with
  | [] => Except.error ("Invalid port spec: " ++ spec)
  | port_str :: _ =>
    match parseNatBounded 65535 port_str with
    | none => Except.error "Invalid port number"
    | some port =>
      if port = 0 then Except.error "Port 0 is not allowed"
      else if spec.data.contains '/' then
        let proto := ((splitOnChar '/' spec.data)[1]?).getD []
        if proto ≠ "tcp".data ∧ proto ≠ "udp".data ∧ proto ≠ "sctp".data then
          Except.error ("Invalid protocol: " ++ ⟨proto⟩)
        else Except.ok ()
      else Except.ok ()

/-- Source `TopologyValidator::validate_destination`. -/
def validate_destination (spec : String) : Except String Unit :=
  let parts := (splitOnChar ':' spec.data).reverse
  match parts with
  | [port_str, ip_str] =>
    match parseIpAddr ⟨ip_str⟩ with
    | none => Except.error "Invalid IP address"
    | some _ =>
      match parseNatBounded 65535 port_str with
      | none => Except.error "Invalid port number"
      | some port =>
        if port = 0 then Except.error "Port 0 is not allowed" else Except.ok ()
  | _ => Except.error "Destination must be in format IP:PORT"

/-- Source `TopologyValidator::validate_port_ranges` (all parse failures are
    caught and become warnings; the function itself never errors). -/
def validate_port_ranges (t : Topology) : Except String (List ValidationWarning) :=
  Except.ok <| t.networks.foldl
    (fun ws e =>
      match e.2 with
      | Network.routed r =>
        r.forwards.foldl
          (fun ws f =>
            let ws := match validate_port_spec f.public with
              | Except.error msg => ws ++ [ValidationWarning.InvalidPort e.1 f.public msg]
              | Except.ok _ => ws
            match validate_destination f.dst with
            | Except.error msg => ws ++ [ValidationWarning.InvalidDestination e.1 f.dst msg]
            | Except.ok _ => ws)
          ws
      | _ => ws)
    []

/-- Source `TopologyValidator::validate_cidr`. -/
def validate_cidr (cidr : String) : Except String Unit :=
  match splitOnChar '/' cidr.data with
  | [ip_str, pfx_str] =>
    match parseIpAddr ⟨ip_str⟩ with
    | none => Except.error "Invalid IP address"
    | some ip =>
      match parseNatBounded 255 pfx_str with
      | none => Except.error "Invalid prefix length"
      | some pfx =>
        match ip with
        | IpAddr.v4 .. =>
          if pfx > 32 then Except.error "IPv4 prefix must be 0-32" else Except.ok ()
        | IpAddr.v6 _ =>
          if pfx > 128 then Except.error "IPv6 prefix must be 0-128" else Except.ok ()
  | _ => Except.error "CIDR must be in format IP/PREFIX"

/-- Source `TopologyValidator::validate_gateway_in_cidr`. -/
def validate_gateway_in_cidr (gateway cidr : String) : Except String Unit :=
  match parseIpv4 gateway with
  | none => Except.error "Invalid gateway IP"
  | some gq =>
    match splitOnChar '/' cidr.data with
    | [ip_str, pfx_str] =>
      match parseIpv4L ip_str with
      | none => Except.error "Invalid network IP"
      | some nq =>
        match parseNatBounded 255 pfx_str with
        | none => Except.error "Invalid prefix"
        | some pfx =>
          let mask := u32shl u32max (sub8from32 pfx)
          if ipv4ToU32 nq &&& mask ≠ ipv4ToU32 gq &&& mask then
            Except.error ("Gateway " ++ gateway ++ " is not in network " ++ cidr)
          else Except.ok ()
    | _ => Except.error "Invalid CIDR"

/-- Source `TopologyValidator::validate_ip_addresses` (failures are caught
    and become warnings). -/
def validate_ip_addresses (t : Topology) : Except String (List ValidationWarning) :=
  Except.ok <| t.networks.foldl
    (fun ws e =>
      match e.2 with
      | Network.routed r =>
        let ws := match validate_cidr r.cidr with
          | Except.error msg => ws ++ [ValidationWarning.InvalidCidr e.1 r.cidr msg]
          | Except.ok _ => ws
        match validate_gateway_in_cidr (ipAddrToString r.gw_ip) r.cidr with
        | Except.error msg =>
          ws ++ [ValidationWarning.GatewayNotInCidr e.1 (ipAddrToString r.gw_ip) r.cidr msg]
        | Except.ok _ => ws
      | _ => ws)
    []

/-- Source `TopologyValidator::check_naming_conflicts` (the `HashSet`
    becomes a seen-list; `insert` returning false becomes a membership
    test). -/
def check_naming_conflicts (t : Topology) : Except String (List ValidationWarning) :=
  Except.ok (t.networks.foldl
    (fun acc e =>
      match e.2 with
      | Network.bridge b =>
        if acc.2.contains b.iface then
          (acc.1 ++ [ValidationWarning.DuplicateInterfaceName b.iface [e.1]], acc.2)
        else (acc.1, acc.2 ++ [b.iface])
      | _ => acc)
    (([], []) : List ValidationWarning × List String)).1

/-- Source `TopologyValidator::validate_network_references` (currently a
    stub returning no warnings). -/
def validate_network_references (_t : Topology) : Except String (List ValidationWarning) :=
  Except.ok []

/-- Source `TopologyValidator::validate`: run all checks in order,
    propagating any error (only `check_cidr_overlaps` can produce one). -/
def validate (t : Topology) : Except String (List ValidationWarning) := do
  let w1 ← check_cidr_overlaps t
  let w2 ← validate_port_ranges t
  let w3 ← validate_ip_addresses t
  let w4 ← check_naming_conflicts t
  let w5 ← validate_network_references t
  Except.ok (w1 ++ w2 ++ w3 ++ w4 ++ w5)

end TopologyValidator

/-! ## Conflicts: `gw-core/src/conflict.rs` and `gw-core/src/detector.rs` -/

/-- Source `conflict::ConflictSeverity`. -/
inductive ConflictSeverity
  | Warning
  | Error
  | Info
  deriving DecidableEq, Repr

/-- Source `conflict::Conflict`. -/
structure Conflict where
  service : String
  severity : ConflictSeverity
  description : String
  suggestion : String
  deriving DecidableEq, Repr

/-- Source `conflict::ConflictReport`. -/
structure ConflictReport where
  conflicts : List Conflict
  deriving DecidableEq, Repr

/-- Source `ConflictReport::has_errors`. -/
def ConflictReport.has_errors (r : ConflictReport) : Bool :=
  r.conflicts.any (fun c => c.severity == ConflictSeverity.Error)

/-- Prefix test on char lists (used by the substring search below). -/
def leadsWith : List Char → List Char → Bool
  | [], _ => true
  | _ :: _, [] => false
  | a :: as, b :: bs => a == b && leadsWith as bs

/-- Substring search on char lists. -/
def containsSubstrL (pat : List Char) : List Char → Bool
  | [] => pat.isEmpty
  | c :: rest => leadsWith pat (c :: rest) || containsSubstrL pat rest

/-- Model of `str::contains` substring search. -/
def containsSubstr (s pat : String) : Bool :=
  containsSubstrL pat.data s.data

/-- Source `ConflictDetector::check_ufw`, with the `ufw status` subprocess
    result passed explicitly (exit success and captured stdout). Description
    and suggestion strings follow the source with apostrophes elided. -/
def check_ufw (statusSuccess : Bool) (stdout : String) : Option Conflict :=
  if statusSuccess ∧ containsSubstr stdout "Status: active" then
    some { service := "UFW", severity := ConflictSeverity.Error,
           description := "UFW is active and will conflict with ghostwarden nftables rules",
           suggestion := "Disable UFW or migrate to ghostwarden policy profiles: sudo ufw disable" }
  else none

/-- Source `ConflictDetector::check_firewalld`, with the `systemctl
    is-active firewalld` result passed explicitly. -/
def check_firewalld (statusSuccess : Bool) (stdout : String) : Option Conflict :=
  if statusSuccess ∧ (⟨asciiTrim stdout.data⟩ : String) = "active" then
    some { service := "firewalld", severity := ConflictSeverity.Error,
           description := "firewalld is active and will conflict with ghostwarden nftables rules",
           suggestion := "Disable firewalld: sudo systemctl disable --now firewalld" }
  else none

/-- Source `ConflictDetector::detect_all`: each probe contributes its
    conflict when it returned `Ok(Some(..))`; probe failures are ignored. -/
def detect_all (nm docker ufw firewalld iptables : Except String (Option Conflict)) :
    ConflictReport :=
  let add := fun (r : ConflictReport) (p : Except String (Option Conflict)) =>
    match p with
    | Except.ok (some c) => { conflicts := r.conflicts ++ [c] }
    | _ => r
  add (add (add (add (add ⟨[]⟩ nm) docker) ufw) firewalld) iptables

/-! ## Apply gating: `gw-cli/src/main.rs`, `apply_network_config` -/

/-- Outcome of the validation / conflict / commit gating at the top of
    `apply_network_config`, before any kernel mutation. -/
inductive ApplyOutcome
  | ValidationFailed
  | ConflictBlocked
  | DryRun
  | Execute
  deriving DecidableEq, Repr

/-- The gating control flow of `apply_network_config`: a validation error
    aborts; a conflict-report error returns early only when `commit` is
    false; a non-commit run stops after displaying the plan; otherwise the
    plan is executed. -/
def apply_gate (validationWarnings : List ValidationWarning) (report : ConflictReport)
    (commit : Bool) : ApplyOutcome :=
  if validationWarnings.any ValidationWarning.is_error then ApplyOutcome.ValidationFailed
  else if report.has_errors ∧ ¬ commit then ApplyOutcome.ConflictBlocked
  else if ¬ commit then ApplyOutcome.DryRun
  else ApplyOutcome.Execute

/-! ## JSON: model of `serde_json::Value` -/

/-- Model of `serde_json::Value`. Object fields are kept in insertion
    order; no claim depends on the key ordering inside an object. -/
inductive Json
  | null
  | bool (b : Bool)
  | num (n : Int)
  | str (s : String)
  | arr (elems : List Json)
  | obj (fields : List (String × Json))

/-! ## Serde deserialization of `RollbackRecord` (`rollback.rs`,
    `load_record`)

    `load_record` reads the snapshot file and runs `serde_json::from_slice`
    for the derived `Deserialize` impl of `RollbackRecord`. The derive has
    no `deny_unknown_fields` attribute, so unknown object keys are skipped;
    `Option` fields default to `None` when absent; all other fields are
    required. The functions below model that derived deserializer on parsed
    JSON values (the claims never involve duplicate keys, which the
    lookup-based model would conflate). -/

/-- Deserialize a u64 field. -/
def deserU64 : Json → Except String Nat
  | Json.num n => if n < 0 then Except.error "invalid value: expected u64" else Except.ok n.toNat
  | _ => Except.error "invalid type: expected u64"

/-- Required `String` struct field. -/
def deserStrField (fields : List (String × Json)) (key : String) : Except String String :=
  match assocLookup fields key with
  | some (Json.str s) => Except.ok s
  | some _ => Except.error ("invalid type for field " ++ key)
  | none => Except.error ("missing field " ++ key)

/-- `Option<String>` struct field (missing or null gives `None`). -/
def deserOptStrField (fields : List (String × Json)) (key : String) :
    Except String (Option String) :=
  match assocLookup fields key with
  | none => Except.ok none
  | some Json.null => Except.ok none
  | some (Json.str s) => Except.ok (some s)
  | some _ => Except.error ("invalid type for field " ++ key)

/-- Required `u16` struct field. -/
def deserNatField (fields : List (String × Json)) (key : String) : Except String Nat :=
  match assocLookup fields key with
  | some (Json.num n) =>
    if n < 0 ∨ n > 65535 then Except.error ("invalid value for field " ++ key)
    else Except.ok n.toNat
  | some _ => Except.error ("invalid type for field " ++ key)
  | none => Except.error ("missing field " ++ key)

/-- Externally tagged enum deserialization of `planner::Action`. -/
def deserAction (j : Json) : Except String Action :=
  match j with
  | Json.obj [(tag, Json.obj fields)] =>
    match tag with
    | "CreateBridge" => do
      let name ← deserStrField fields "name"
      let cidr ← deserOptStrField fields "cidr"
      Except.ok (Action.CreateBridge name cidr)
    | "AddAddress" => do
      let iface ← deserStrField fields "iface"
      let addr ← deserStrField fields "addr"
      Except.ok (Action.AddAddress iface addr)
    | "EnableForwarding" => do
      let iface ← deserStrField fields "iface"
      Except.ok (Action.EnableForwarding iface)
    | "CreateNftRuleset" => do
      let table ← deserStrField fields "table"
      let pp ← deserOptStrField fields "policy_profile"
      Except.ok (Action.CreateNftRuleset table pp)
    | "StartDnsmasq" => do
      let config_path ← deserStrField fields "config_path"
      Except.ok (Action.StartDnsmasq config_path)
    | "CreateVlan" => do
      let parent ← deserStrField fields "parent"
      let vlan_id ← deserNatField fields "vlan_id"
      let name ← deserStrField fields "name"
      Except.ok (Action.CreateVlan parent vlan_id name)
    | "AttachVlanToBridge" => do
      let vlan ← deserStrField fields "vlan"
      let bridge ← deserStrField fields "bridge"
      Except.ok (Action.AttachVlanToBridge vlan bridge)
    | _ => Except.error "unknown variant"
  | _ => Except.error "invalid type: expected externally tagged enum"

/-- Deserialize `Vec<Action>`. -/
def deserActions : Json → Except String (List Action)
  | Json.arr elems => exceptMapM deserAction elems
  | _ => Except.error "invalid type: expected sequence"

/-- Deserialize `HashMap<String, Option<String>>`. -/
def deserSnapshots : Json → Except String (List (String × Option String))
  | Json.obj fields =>
    exceptMapM (fun kv =>
      match kv.2 with
      | Json.null => Except.ok (kv.1, (none : Option String))
      | Json.str s => Except.ok (kv.1, some s)
      | _ => Except.error "invalid type: expected string or null") fields
  | _ => Except.error "invalid type: expected map"

/-- Deserialize `Plan` (a struct with the single field `actions`). -/
def deserPlan : Json → Except String Plan
  | Json.obj fields =>
    match assocLookup fields "actions" with
    | some v => (deserActions v).map Plan.mk
    | none => Except.error "missing field actions"
  | _ => Except.error "invalid type: expected struct Plan"

/-- Deserialize `Option<Plan>` from a present field value. -/
def deserOptPlan : Json → Except String (Option Plan)
  | Json.null => Except.ok none
  | v => (deserPlan v).map some

/-- The derived `RollbackRecord` deserializer: `created_at`, `actions` and
    `nft_snapshots` are required, `plan` is optional, and any other key is
    skipped without error. -/
def deserRollbackRecord (j : Json) : Except String RollbackRecord :=
  match j with
  | Json.obj fields => do
    let created_at ← match assocLookup fields "created_at" with
      | some v => deserU64 v
      | none => Except.error "missing field created_at"
    let plan ← match assocLookup fields "plan" with
      | none => Except.ok (none : Option Plan)
      | some v => deserOptPlan v
    let actions ← match assocLookup fields "actions" with
      | some v => deserActions v
      | none => Except.error "missing field actions"
    let nft ← match assocLookup fields "nft_snapshots" with
      | some v => deserSnapshots v
      | none => Except.error "missing field nft_snapshots"
    Except.ok ⟨created_at, plan, actions, nft⟩
  | _ => Except.error "invalid type: expected object"

/-! ## Ruleset synthesizer: `gw-nft/src/ruleset.rs` -/

/-- Model of `ipnet::IpNet`: the address as parsed (host bits kept) plus
    the prefix length. -/
structure IpNet where
  addr : IpAddr
  prefixLen : Nat
  deriving DecidableEq, Repr

/-- Model of `IpNet::from_str`: `ADDR/PREFIX` with the prefix within the
    family bit width. -/
def parseIpNet (s : String) : Option IpNet :=
  match splitOnChar '/' s.data with
  | [addrPart, pfxPart] =>
    match parseIpAddr ⟨addrPart⟩ with
    | some ip =>
      match parseNatBounded 255 pfxPart with
      | some pfx =>
        match ip with
        | IpAddr.v4 .. => if pfx ≤ 32 then some ⟨ip, pfx⟩ else none
        | IpAddr.v6 _ => if pfx ≤ 128 then some ⟨ip, pfx⟩ else none
      | none => none
    | none => none
  | _ => none

/-- Source `ip_protocol`. -/
def ip_protocol : IpAddr → String
  | IpAddr.v4 .. => "ip"
  | IpAddr.v6 _ => "ip6"

/-- Source `ipnet_protocol`. -/
def ipnet_protocol (net : IpNet) : String :=
  ip_protocol net.addr

/-- Source `accept_expr`. -/
def accept_expr : Json :=
  Json.obj [("accept", Json.null)]

/-- Source `match_iface`. -/
def match_iface (key iface : String) : Json :=
  Json.obj [("match", Json.obj
    [("left", Json.obj [("meta", Json.obj [("key", Json.str key)])]),
     ("op", Json.str "=="),
     ("right", Json.str iface)])]

/-- Source `match_l4proto`. -/
def match_l4proto (proto : String) : Json :=
  Json.obj [("match", Json.obj
    [("left", Json.obj [("meta", Json.obj [("key", Json.str "l4proto")])]),
     ("op", Json.str "=="),
     ("right", Json.str proto)])]

/-- Source `match_port`. -/
def match_port (proto field : String) (port : Nat) : Json :=
  Json.obj [("match", Json.obj
    [("left", Json.obj [("payload", Json.obj
       [("protocol", Json.str proto), ("field", Json.str field)])]),
     ("op", Json.str "=="),
     ("right", Json.num port)])]

/-- Source `match_ip_addr_expr`. -/
def match_ip_addr_expr (field : String) (ip : IpAddr) : Json :=
  Json.obj [("match", Json.obj
    [("left", Json.obj [("payload", Json.obj
       [("protocol", Json.str (ip_protocol ip)), ("field", Json.str field)])]),
     ("op", Json.str "=="),
     ("right", Json.str (ipAddrToString ip))])]

/-- Source `match_ip_prefix_expr`. -/
def match_ip_prefix_expr (field : String) (net : IpNet) : Json :=
  Json.obj [("match", Json.obj
    [("left", Json.obj [("payload", Json.obj
       [("protocol", Json.str (ipnet_protocol net)), ("field", Json.str field)])]),
     ("op", Json.str "=="),
     ("right", Json.obj [("prefix", Json.obj
       [("addr", Json.str (ipAddrToString net.addr)),
        ("len", Json.num net.prefixLen)])])])]

/-- Source `dnat_expr`. -/
def dnat_expr (dest : IpAddr) (port : Nat) : Json :=
  Json.obj [("dnat", Json.obj
    [("addr", Json.str (ipAddrToString dest)), ("port", Json.num port)])]

/-- Source `snat_expr`. -/
def snat_expr (gateway : IpAddr) : Json :=
  Json.obj [("snat", Json.obj [("addr", Json.str (ipAddrToString gateway))])]

/-- Shared rule-statement shape. The source writes this object literal
    inline at each rule construction site; the fields are identical at each
    site. -/
def rule_stmt (table chain : String) (expr : List Json) : Json :=
  Json.obj [("rule", Json.obj
    [("family", Json.str "inet"),
     ("table", Json.str table),
     ("chain", Json.str chain),
     ("expr", Json.arr expr)])]

/-- Source `base_table_definition`. -/
def base_table_definition (table_name : String) : List Json :=
  [Json.obj [("flush", Json.obj [("table", Json.obj
     [("family", Json.str "inet"), ("name", Json.str table_name)])])],
   Json.obj [("table", Json.obj
     [("family", Json.str "inet"), ("name", Json.str table_name)])]]

/-- Chain-statement shape shared by the base chain builders. -/
def chain_stmt (table name ty hook : String) (prio : Int) (policy : String) : Json :=
  Json.obj [("chain", Json.obj
    [("family", Json.str "inet"),
     ("table", Json.str table),
     ("name", Json.str name),
     ("type", Json.str ty),
     ("hook", Json.str hook),
     ("prio", Json.num prio),
     ("policy", Json.str policy)])]

/-- Source `base_filter_chain`. -/
def base_filter_chain (table_name default_policy : String) : List Json :=
  [chain_stmt table_name "input" "filter" "input" 0 default_policy,
   chain_stmt table_name "forward" "filter" "forward" 0 default_policy]

/-- Source `base_output_chain`. -/
def base_output_chain (table_name : String) : List Json :=
  [chain_stmt table_name "output" "filter" "output" 0 "accept"]

/-- Source `base_nat_chains`. -/
def base_nat_chains (table_name : String) : List Json :=
  [chain_stmt table_name "postrouting" "nat" "postrouting" 100 "accept",
   chain_stmt table_name "prerouting" "nat" "prerouting" (-100) "accept"]

/-- Source `ct_state_accept_rule`. -/
def ct_state_accept_rule (table_name chain : String) : Json :=
  rule_stmt table_name chain
    [Json.obj [("match", Json.obj
       [("left", Json.obj [("ct", Json.obj [("key", Json.str "state")])]),
        ("op", Json.str "in"),
        ("right", Json.arr [Json.str "established", Json.str "related"])])],
     accept_expr]

/-- Source `stateful_allow_rules`. -/
def stateful_allow_rules (table_name : String) : List Json :=
  [ct_state_accept_rule table_name "input",
   ct_state_accept_rule table_name "forward"]

/-- Source `loopback_rule`. -/
def loopback_rule (table_name : String) : Json :=
  rule_stmt table_name "input" [match_iface "iifname" "lo", accept_expr]

/-- Source `ForwardProtocol`. -/
inductive ForwardProtocol
  | tcp
  | udp
  | icmp
  deriving DecidableEq, Repr

/-- Source `ForwardProtocol::from_str`. -/
def ForwardProtocol.from_str (proto : String) : Except String ForwardProtocol :=
  match asciiLowerStr proto with
  | "tcp" => Except.ok ForwardProtocol.tcp
  | "udp" => Except.ok ForwardProtocol.udp
  | "icmp" => Except.ok ForwardProtocol.icmp
  | other => Except.error ("Unsupported protocol " ++ other)

/-- Source `ForwardProtocol::as_str`. -/
def ForwardProtocol.as_str : ForwardProtocol → String
  | ForwardProtocol.tcp => "tcp"
  | ForwardProtocol.udp => "udp"
  | ForwardProtocol.icmp => "icmp"

/-- Source `ForwardRule`. -/
structure ForwardRule where
  public_addr : Option IpAddr
  public_port : Nat
  protocol : ForwardProtocol
  dest_addr : IpAddr
  dest_port : Nat
  deriving DecidableEq, Repr

/-- Source `split_proto`: split at the LAST `/`, the protocol is the piece
    after it. -/
def split_proto (spec : String) : Except String (List Char × String) :=
  match splitAtLastChar '/' spec.data with
  | none => Except.error ("Missing protocol in " ++ spec)
  | some (addr_part, proto) =>
    if proto.isEmpty then Except.error ("Protocol missing in " ++ spec)
    else Except.ok (addr_part, ⟨proto⟩)

/-- Source `split_host_port`. -/
def split_host_port (addr_part : List Char) : Except String (Option IpAddr × Nat) :=
  let trimmed := asciiTrim addr_part
  let hp : List Char × List Char :=
    match splitAtLastChar ':' trimmed with
    | some (host, port_str) => (host, port_str)
    | none => ([], trimmed)
  match parseNatBounded 65535 hp.2 with
  | none => Except.error "Invalid public port"
  | some port =>
    let host := asciiTrim hp.1
    if host.isEmpty ∨ host = "0.0.0.0".data then Except.ok (none, port)
    else
      match parseIpAddr ⟨host⟩ with
      | some addr => Except.ok (some addr, port)
      | none => Except.error "Invalid public IP address"

/-- Source `split_destination`. -/
def split_destination (dest : String) : Except String (IpAddr × Nat) :=
  let trimmed := asciiTrim dest.data
  match splitAtLastChar ':' trimmed with
  | none => Except.error "Destination must be IP:PORT"
  | some (ip_str, port_str) =>
    match parseIpAddr ⟨ip_str⟩ with
    | none => Except.error "Invalid destination IP address"
    | some ip =>
      match parseNatBounded 65535 port_str with
      | none => Except.error "Invalid destination port"
      | some port => Except.ok (ip, port)

/-- Source `ForwardRule::parse`. -/
def ForwardRule.parse (pub dest : String) : Except String ForwardRule := do
  let (addr_part, proto_part) ← split_proto pub
  let protocol ← ForwardProtocol.from_str proto_part
  match protocol with
  | ForwardProtocol.icmp => Except.error "ICMP is not supported for port forwards"
  | _ => do
    let (public_addr, public_port) ← split_host_port addr_part
    let (dest_addr, dest_port) ← split_destination dest
    Except.ok ⟨public_addr, public_port, protocol, dest_addr, dest_port⟩

/-- Source `parse_forward_rules` (`iter().map(..).collect::<Result<_>>`). -/
def parse_forward_rules (entries : List (String × String)) : Except String (List ForwardRule) :=
  exceptMapM (fun e => ForwardRule.parse e.1 e.2) entries

/-- Source `parse_ipnet`. -/
def parse_ipnet (value : String) : Except String IpNet :=
  match parseIpNet value with
  | some n => Except.ok n
  | none => Except.error ("Invalid CIDR " ++ value)

/-- Accumulating rule loop shared by the three policy rule builders
    (`for x in list { rules.push(build(x)?) }`). -/
def buildRules {α : Type} (f : α → Except String Json) :
    List Json → List α → Except String (List Json)
  | acc, [] => Except.ok acc
  | acc, x :: xs => do
    let r ← f x
    buildRules f (acc ++ [r]) xs

/-- One iteration of the `policy_service_rules` loop. -/
def service_rule (table_name bridge_name : String) (service : Service) :
    Except String Json := do
  let proto := match service.protocol with
    | Protocol.tcp => ForwardProtocol.tcp
    | Protocol.udp => ForwardProtocol.udp
    | Protocol.icmp => ForwardProtocol.icmp
  let expr := [match_iface "iifname" bridge_name]
  let expr := match proto with
    | ForwardProtocol.icmp => expr ++ [match_l4proto "icmp"]
    | _ => expr ++ [match_l4proto proto.as_str, match_port proto.as_str "dport" service.port]
  let expr ← match service.source with
    | some source => do
      let net ← parse_ipnet source
      Except.ok (expr ++ [match_ip_prefix_expr "saddr" net])
    | none => Except.ok expr
  Except.ok (rule_stmt table_name "input" (expr ++ [accept_expr]))

/-- Source `policy_service_rules`. -/
def policy_service_rules (table_name bridge_name : String) (policy : PolicyProfile) :
    Except String (List Json) :=
  buildRules (service_rule table_name bridge_name) [] policy.services

/-- One iteration of the `policy_ingress_rules` loop. -/
def ingress_rule (table_name bridge_name : String) (cidr : String) :
    Except String Json := do
  let net ← parse_ipnet cidr
  Except.ok (rule_stmt table_name "input"
    [match_iface "iifname" bridge_name, match_ip_prefix_expr "saddr" net, accept_expr])

/-- Source `policy_ingress_rules`. -/
def policy_ingress_rules (table_name bridge_name : String) (policy : PolicyProfile) :
    Except String (List Json) :=
  buildRules (ingress_rule table_name bridge_name) [] policy.allowed_ingress_cidrs

/-- One iteration of the `policy_egress_rules` loop. -/
def egress_rule (table_name bridge_name : String) (cidr : String) :
    Except String Json := do
  let net ← parse_ipnet cidr
  Except.ok (rule_stmt table_name "forward"
    [match_iface "iifname" bridge_name, match_ip_prefix_expr "daddr" net, accept_expr])

/-- Source `policy_egress_rules`. -/
def policy_egress_rules (table_name bridge_name : String) (policy : PolicyProfile) :
    Except String (List Json) :=
  buildRules (egress_rule table_name bridge_name) [] policy.allowed_egress_cidrs

/-- The two NAT rules emitted per parsed forward inside `build_nat_rules`. -/
def forward_nat_rules (table_name bridge_name : String) (bridge_net : IpNet)
    (gateway : IpAddr) (masq_iface : String) (f : ForwardRule) : List Json :=
  let prerouting_expr :=
    [match_iface "iifname" masq_iface,
     match_l4proto f.protocol.as_str,
     match_port f.protocol.as_str "dport" f.public_port]
  let prerouting_expr := match f.public_addr with
    | some addr => prerouting_expr ++ [match_ip_addr_expr "daddr" addr]
    | none => prerouting_expr
  let prerouting_expr := prerouting_expr ++ [dnat_expr f.dest_addr f.dest_port]
  let postrouting_expr :=
    [match_iface "iifname" bridge_name,
     match_iface "oifname" bridge_name,
     match_l4proto f.protocol.as_str,
     match_port f.protocol.as_str "dport" f.dest_port,
     match_ip_prefix_expr "saddr" bridge_net,
     match_ip_addr_expr "daddr" f.dest_addr,
     snat_expr gateway]
  [rule_stmt table_name "prerouting" prerouting_expr,
   rule_stmt table_name "postrouting" postrouting_expr]

/-- Source `build_nat_rules`. -/
def build_nat_rules (table_name bridge_name : String) (bridge_net : IpNet)
    (gateway : IpAddr) (masq_iface : String) (forwards : List ForwardRule) : List Json :=
  let rules :=
    if ¬ masq_iface.isEmpty then
      [rule_stmt table_name "postrouting"
        [match_iface "oifname" masq_iface,
         match_ip_prefix_expr "saddr" bridge_net,
         Json.obj [("masquerade", Json.null)]]]
    else []
  forwards.foldl
    (fun rules f =>
      rules ++ forward_nat_rules table_name bridge_name bridge_net gateway masq_iface f)
    rules

/-- Source `NftManager::create_complete_ruleset`, statement-list part: the
    `nftables` vector as built just before serialization. -/
def create_complete_ruleset_stmts (table_name bridge_name bridge_cidr gateway_ip
    masq_iface : String) (forwards : List (String × String))
    (policy : Option PolicyProfile) : Except String (List Json) := do
  let bridge_net ← match parseIpNet bridge_cidr with
    | some n => Except.ok n
    | none => Except.error ("Invalid bridge CIDR " ++ bridge_cidr)
  let gateway ← match parseIpAddr gateway_ip with
    | some ip => Except.ok ip
    | none => Except.error ("Invalid gateway IP " ++ gateway_ip)
  let parsed_forwards ← parse_forward_rules forwards
  let nftables := base_table_definition table_name
  let default_policy := match policy with
    | some p =>
      match p.default_action with
      | PolicyAction.accept => "accept"
      | PolicyAction.drop => "drop"
      | PolicyAction.reject => "drop"
    | none => "accept"
  let nftables := nftables ++ base_filter_chain table_name default_policy
  let nftables := nftables ++ base_output_chain table_name
  let nftables := nftables ++ base_nat_chains table_name
  let nftables := nftables ++ stateful_allow_rules table_name
  let nftables := nftables ++ [loopback_rule table_name]
  let nftables ← match policy with
    | some p => do
      let svc ← policy_service_rules table_name bridge_name p
      let ing ← policy_ingress_rules table_name bridge_name p
      let egr ← policy_egress_rules table_name bridge_name p
      Except.ok (nftables ++ svc ++ ing ++ egr)
    | none => Except.ok nftables
  Except.ok (nftables ++
    build_nat_rules table_name bridge_name bridge_net gateway masq_iface parsed_forwards)

/-! ### Pretty rendering: model of `serde_json::to_string_pretty` -/

/-- Indentation (two spaces per level, as serde_json pretty). -/
def spacesStr (n : Nat) : String :=
  ⟨List.replicate n ' '⟩

/-- Integer rendering. -/
def intToString (n : Int) : String :=
  if n < 0 then "-" ++ toString n.natAbs else toString n.toNat

/-- JSON string escaping (the characters the sources can produce). -/
def escapeJsonChar (c : Char) : List Char :=
  if c = '"' then ['\\', '"']
  else if c = '\\' then ['\\', '\\']
  else if c = '\n' then ['\\', 'n']
  else if c = '\t' then ['\\', 't']
  else if c = '\r' then ['\\', 'r']
  else [c]

/-- Quoted, escaped JSON string. -/
def renderJsonStr (s : String) : String :=
  "\"" ++ (⟨(s.data.map escapeJsonChar).flatten⟩ : String) ++ "\""

mutual

/-- Pretty printer for JSON values at the given indentation level. -/
def renderJson (indent : Nat) : Json → String
  | Json.null => "null"
  | Json.bool true => "true"
  | Json.bool false => "false"
  | Json.num n => intToString n
  | Json.str s => renderJsonStr s
  | Json.arr [] => "[]"
  | Json.arr (x :: xs) =>
    "[\n" ++ renderElems (indent + 2) x xs ++ "\n" ++ spacesStr indent ++ "]"
  | Json.obj [] => "\x7b\x7d"
  | Json.obj ((k, v) :: fs) =>
    "\x7b\n" ++ renderFields (indent + 2) k v fs ++ "\n" ++ spacesStr indent ++ "\x7d"
termination_by j => sizeOf j

/-- Comma-joined array elements. -/
def renderElems (indent : Nat) (x : Json) (xs : List Json) : String :=
  match xs with
  | [] => spacesStr indent ++ renderJson indent x
  | y :: ys => spacesStr indent ++ renderJson indent x ++ ",\n" ++ renderElems indent y ys
termination_by sizeOf x + sizeOf xs

/-- Comma-joined object fields. -/
def renderFields (indent : Nat) (k : String) (v : Json) (fs : List (String × Json)) : String :=
  match fs with
  | [] => spacesStr indent ++ renderJsonStr k ++ ": " ++ renderJson indent v
  | (k2, v2) :: gs =>
    spacesStr indent ++ renderJsonStr k ++ ": " ++ renderJson indent v ++ ",\n" ++
      renderFields indent k2 v2 gs
termination_by sizeOf v + sizeOf fs

end

/-- Source `NftManager::create_complete_ruleset`: the statement list
    wrapped as the top-level object and pretty-printed. -/
def create_complete_ruleset (table_name bridge_name bridge_cidr gateway_ip
    masq_iface : String) (forwards : List (String × String))
    (policy : Option PolicyProfile) : Except String String :=
  (create_complete_ruleset_stmts table_name bridge_name bridge_cidr gateway_ip
      masq_iface forwards policy).map
    (fun stmts => renderJson 0 (Json.obj [("nftables", Json.arr stmts)]))

/-! ## Claim-side definitions (spec wording) and concrete instances -/

/-- Decidable equality for `Except` results (used to evaluate the embedded
    functions at concrete inputs). -/
instance exceptDecEq {ε α : Type} [DecidableEq ε] [DecidableEq α] :
    DecidableEq (Except ε α) := fun a b =>
  match a, b with
  | Except.ok x, Except.ok y =>
    if h : x = y then isTrue (by rw [h]) else isFalse (by intro hc; cases hc; exact h rfl)
  | Except.error x, Except.error y =>
    if h : x = y then isTrue (by rw [h]) else isFalse (by intro hc; cases hc; exact h rfl)
  | Except.ok _, Except.error _ => isFalse (by intro hc; cases hc)
  | Except.error _, Except.ok _ => isFalse (by intro hc; cases hc)

/-- The reversal table of spec section 4.7 and claim C2: the rollback ops
    assigned to one recorded action (none for `EnableForwarding` and
    `AttachVlanToBridge`; the `RestoreNft` payload is the snapshot recorded
    for the table, `none` when the key is absent). -/
def spec_rollback_op_for (ctx : ExecutionContext) : Action → List RollbackOp
  | Action.CreateBridge name _ => [RollbackOp.DeleteBridge name]
  | Action.AddAddress iface addr => [RollbackOp.RemoveAddress iface addr]
  | Action.CreateNftRuleset table _ =>
    [RollbackOp.RestoreNft table ((ctx.nft_snapshot table).getD none)]
  | Action.StartDnsmasq config_path => [RollbackOp.DeleteDnsmasqConfig config_path]
  | Action.CreateVlan _ _ name => [RollbackOp.DeleteVlan name]
  | Action.EnableForwarding _ => []
  | Action.AttachVlanToBridge _ _ => []

/-- The per-network action block of spec section 4.3 and claim C8: for a
    routed network `N` the ordered block CreateBridge `br-N`, AddAddress
    `br-N`, EnableForwarding `br-N`, CreateNftRuleset `gw-N`, then
    StartDnsmasq `/etc/dnsmasq.d/gw-N.conf` exactly when dhcp is set; for a
    bridge network the optional VLAN pair followed by its CreateBridge;
    nothing for VXLAN. -/
def spec_network_actions (t : Topology) (entry : String × Network) : List Action :=
  match entry.2 with
  | Network.routed r =>
    [Action.CreateBridge ("br-" ++ entry.1) (some r.cidr),
     Action.AddAddress ("br-" ++ entry.1) r.cidr,
     Action.EnableForwarding ("br-" ++ entry.1),
     Action.CreateNftRuleset ("gw-" ++ entry.1) r.policy_profile] ++
    (if r.dhcp then [Action.StartDnsmasq ("/etc/dnsmasq.d/gw-" ++ entry.1 ++ ".conf")]
     else [])
  | Network.bridge b =>
    (match b.vlan, assocLookup t.interfaces "uplink" with
     | some vlan_id, some uplink =>
       [Action.CreateVlan uplink vlan_id (uplink ++ "." ++ toString vlan_id),
        Action.AttachVlanToBridge (uplink ++ "." ++ toString vlan_id) b.iface]
     | _, _ => []) ++
    [Action.CreateBridge b.iface none]
  | Network.vxlan _ => []

/-- The default-action mapping of spec section 4.4 and claim C7:
    accept maps to accept, drop and reject both map to drop, and an absent
    profile maps to accept. -/
def spec_default_policy : Option PolicyProfile → String
  | none => "accept"
  | some p =>
    match p.default_action with
    | PolicyAction.accept => "accept"
    | PolicyAction.drop => "drop"
    | PolicyAction.reject => "drop"

/-- Projection: the fields of a chain statement, when the statement is one. -/
def chainFields (s : Json) : Option (List (String × Json)) :=
  match s with
  | Json.obj [("chain", Json.obj fields)] => some fields
  | _ => none

/-- Projection: the `policy` value of the first chain statement with the
    given name in a statement list. -/
def chain_policy (stmts : List Json) (name : String) : Option Json :=
  match stmts with
  | [] => none
  | s :: rest =>
    match chainFields s with
    | some fields =>
      match assocLookup fields "name" with
      | some (Json.str n) =>
        if n = name then assocLookup fields "policy" else chain_policy rest name
      | _ => chain_policy rest name
    | none => chain_policy rest name

/-- Hypothesis predicate for claim C9: the CIDR parses the way
    `cidrs_overlap` parses it (IPv4 dotted quad, `/`, u8 prefix). -/
def cidrParses (s : String) : Bool :=
  match splitOnChar '/' s.data with
  | [ip, pfx] => (parseIpv4L ip).isSome && (parseNatBounded 255 pfx).isSome
  | _ => false

/-- Hypothesis predicate for claim C9: every routed network CIDR in the
    topology parses. -/
def routed_cidrs_parse (t : Topology) : Bool :=
  t.networks.all (fun e =>
    match e.2 with
    | Network.routed r => cidrParses r.cidr
    | _ => true)

/-- Scenario S1 routed network (spec section 8). -/
def s1_network : RoutedNetwork :=
  { cidr := "10.33.0.0/24", gw_ip := IpAddr.v4 10 33 0 1, dhcp := true,
    dns := none, masq_out := some "eth0",
    forwards := [{ public := ":4022/tcp", dst := "10.33.0.10:22" }],
    policy_profile := none }

/-- Scenario S1 topology. -/
def s1_topology : Topology :=
  { version := 1, interfaces := [("uplink", "eth0")],
    networks := [("nat_dev", Network.routed s1_network)] }

/-- A routed network whose only forward uses the `sctp` protocol (claim
    C10). -/
def sctp_network : RoutedNetwork :=
  { cidr := "10.33.0.0/24", gw_ip := IpAddr.v4 10 33 0 1, dhcp := false,
    dns := none, masq_out := some "eth0",
    forwards := [{ public := ":4022/sctp", dst := "10.33.0.10:22" }],
    policy_profile := none }

/-- Topology holding only `sctp_network` (claim C10). -/
def sctp_topology : Topology :=
  { version := 1, interfaces := [], networks := [("nat_dev", Network.routed sctp_network)] }

/-- Two routed networks, the second with an IPv6 CIDR that the overlap
    check cannot parse (claim C9 counterexample). -/
def c9_bad_topology : Topology :=
  { version := 1, interfaces := [],
    networks :=
      [("a", Network.routed
         { cidr := "10.0.0.0/24", gw_ip := IpAddr.v4 10 0 0 1, dhcp := false,
           dns := none, masq_out := none, forwards := [], policy_profile := none }),
       ("b", Network.routed
         { cidr := "fd00::/64", gw_ip := IpAddr.v4 10 1 0 1, dhcp := false,
           dns := none, masq_out := none, forwards := [], policy_profile := none })] }

/-- An execution context with rollback disabled (claim C4 counterexample). -/
def c4_context : ExecutionContext :=
  { actions_completed := [Action.CreateBridge "br-nat_dev" (some "10.33.0.0/24")],
    rollback_enabled := false,
    nft_snapshots := [("gw-nat_dev", some "snapshot")],
    plan := none }

/-- A persisted snapshot JSON carrying one field outside the
    `RollbackRecord` schema (claim C6 failing input). -/
def c6_snapshot_json : Json :=
  Json.obj
    [("created_at", Json.num 0),
     ("plan", Json.null),
     ("actions", Json.arr []),
     ("nft_snapshots", Json.obj []),
     ("extra_field", Json.num 1)]

/-- The statement list synthesized for a concrete profile-free input
    (claim C7 witness). -/
def c7_example_stmts : List Json :=
  match create_complete_ruleset_stmts "gw-x" "br-x" "10.33.0.0/24" "10.33.0.1" "eth0"
      [] none with
  | Except.ok stmts => stmts
  | Except.error _ => []

/-! ## Theorems -/

/-- A fold that appends a per-element block is the flat map of the blocks. -/
theorem foldl_append_eq_flatMap {α β : Type} (g : α → List β) (l : List α) :
    ∀ acc : List β, l.foldl (fun ops a => ops ++ g a) acc = acc ++ l.flatMap g := by
  induction l with
  | nil => intro acc; simp
  | cons x xs ih =>
    intro acc
    simp only [List.foldl_cons, List.flatMap_cons, ih, List.append_assoc]

/-- The rollback loop body appends exactly the block the spec table
    assigns. -/
theorem rollback_step_eq (ctx : ExecutionContext) (ops : List RollbackOp) (a : Action) :
    ctx.rollback_step ops a = ops ++ spec_rollback_op_for ctx a := by
  cases a <;> simp [ExecutionContext.rollback_step, spec_rollback_op_for]

/-- C2: for every ExecutionContext, `rollback_operations` is exactly the
    reverse of `actions_completed` flat-mapped through the spec reversal
    table: one op per action (`DeleteBridge` for `CreateBridge`,
    `RemoveAddress` for `AddAddress`, `RestoreNft` with the recorded
    snapshot — defaulting to `none` when no key exists — for
    `CreateNftRuleset`, `DeleteDnsmasqConfig` for `StartDnsmasq`,
    `DeleteVlan` for `CreateVlan`) and none for `EnableForwarding` and
    `AttachVlanToBridge`, in reverse completion order. -/
theorem c2_rollback_reversal_complete (ctx : ExecutionContext) :
    ctx.rollback_operations =
      ctx.actions_completed.reverse.flatMap (spec_rollback_op_for ctx) := by
  unfold ExecutionContext.rollback_operations
  have h : ctx.rollback_step = fun ops a => ops ++ spec_rollback_op_for ctx a := by
    funext ops a
    exact rollback_step_eq ctx ops a
  rw [h, foldl_append_eq_flatMap]
  simp

/-- The planner loop body appends exactly the block the spec assigns to
    the entry. -/
theorem plan_step_eq (t : Topology) (acts : List Action) (e : String × Network) :
    plan_step t acts e = acts ++ spec_network_actions t e := by
  rcases e with ⟨n, net⟩
  cases net with
  | routed r =>
    cases hd : r.dhcp <;> simp [plan_step, spec_network_actions, hd, List.append_assoc]
  | bridge b =>
    cases hv : b.vlan with
    | none => simp [plan_step, spec_network_actions, hv]
    | some vid =>
      cases hu : assocLookup t.interfaces "uplink" <;>
        simp [plan_step, spec_network_actions, hv, hu, List.append_assoc]
  | vxlan v => simp [plan_step, spec_network_actions]

/-- C8: for every topology (a fortiori for every topology with no
    validation errors, since `Plan::from_topology` is total), the produced
    plan is the concatenation, in map iteration order, of the per-network
    blocks: for each routed network `N` the actions CreateBridge `br-N`,
    AddAddress `br-N`, EnableForwarding `br-N`, CreateNftRuleset `gw-N`,
    then StartDnsmasq `/etc/dnsmasq.d/gw-N.conf` exactly when dhcp is set,
    so dependencies precede dependents and the name derivations are exact. -/
theorem c8_plan_shape (t : Topology) :
    (Plan.from_topology t).actions = t.networks.flatMap (spec_network_actions t) := by
  unfold Plan.from_topology
  have h : plan_step t = fun acts e => acts ++ spec_network_actions t e := by
    funext acts e
    exact plan_step_eq t acts e
  rw [h, foldl_append_eq_flatMap]
  simp

/-- C1: code-bug evidence. On the S1 topology the plan produced by
    `Plan::from_topology` carries, as the AddAddress payload for
    `br-nat_dev`, the bare network CIDR `10.33.0.0/24` taken from
    `routed.cidr` — not the gateway host `10.33.0.1/24` the spec
    requires — and the two strings differ. -/
theorem c1_planner_emits_bare_cidr_address :
    (Plan.from_topology s1_topology).actions =
      [Action.CreateBridge "br-nat_dev" (some "10.33.0.0/24"),
       Action.AddAddress "br-nat_dev" "10.33.0.0/24",
       Action.EnableForwarding "br-nat_dev",
       Action.CreateNftRuleset "gw-nat_dev" none,
       Action.StartDnsmasq "/etc/dnsmasq.d/gw-nat_dev.conf"]
    ∧ ("10.33.0.0/24" : String) ≠ "10.33.0.1/24" := by
  decide

/-- C4 counterexample: a context with `rollback_enabled = false` does not
    survive the record round trip, because `from_rollback_record` always
    re-enables rollback. -/
theorem c4_roundtrip_counterexample :
    ExecutionContext.from_rollback_record (c4_context.to_rollback_record 0) ≠ c4_context := by
  decide

/-- C4 (amended): the record round trip restores `actions_completed`,
    `nft_snapshots` and `plan` exactly; `rollback_enabled` is forced to
    `true` by `from_rollback_record`, so full equality holds exactly when
    the context had rollback enabled. -/
theorem c4_roundtrip_amended (ctx : ExecutionContext) (now : Nat)
    (h : ctx.rollback_enabled = true) :
    ExecutionContext.from_rollback_record (ctx.to_rollback_record now) = ctx := by
  cases ctx with
  | mk acts re ns p =>
    cases re with
    | true => rfl
    | false => simp at h

/-- C4 witness: the amended round trip at a concrete enabled context. -/
theorem c4_roundtrip_amended_witness :
    ExecutionContext.from_rollback_record
      ((⟨[Action.EnableForwarding "br-x"], true, [("gw-x", none)], none⟩ :
        ExecutionContext).to_rollback_record 7) =
      ⟨[Action.EnableForwarding "br-x"], true, [("gw-x", none)], none⟩ :=
  c4_roundtrip_amended _ 7 rfl

/-- C5: code-bug evidence. With an active-UFW error conflict in the
    report, the apply gate still reaches plan execution when `--commit` is
    given: the conflict check `has_errors() && !commit` is bypassed by
    `commit = true`, contradicting the claim (and the message the code
    itself prints about needing an override). -/
theorem c5_commit_bypasses_conflict_errors :
    (detect_all (Except.ok none) (Except.ok none)
        (Except.ok (check_ufw true "Status: active")) (Except.ok none)
        (Except.ok none)).has_errors = true
    ∧ apply_gate []
        (detect_all (Except.ok none) (Except.ok none)
          (Except.ok (check_ufw true "Status: active")) (Except.ok none)
          (Except.ok none)) true = ApplyOutcome.Execute := by
  decide

/-- C6: code-bug evidence. The derived `RollbackRecord` deserializer (no
    `deny_unknown_fields`) accepts a snapshot JSON carrying the extra key
    `extra_field` and silently drops it, instead of failing closed. -/
theorem c6_unknown_field_is_silently_dropped :
    deserRollbackRecord c6_snapshot_json =
      Except.ok { created_at := 0, plan := none, actions := [], nft_snapshots := [] } := by
  decide

/-- An `Except` value with `isOk` holds an ok payload. -/
theorem isOk_exists {ε α : Type} {e : Except ε α} (h : e.isOk = true) :
    ∃ a, e = Except.ok a := by
  cases e with
  | ok a => exact ⟨a, rfl⟩
  | error _ => simp [Except.isOk, Except.toBool] at h

/-- Bind on an ok value reduces. -/
theorem except_bind_ok {ε α β : Type} (a : α) (f : α → Except ε β) :
    (Except.ok a : Except ε α) >>= f = f a := rfl

/-- C9 counterexample: on a topology with two routed networks whose second
    CIDR is IPv6, `validate` propagates the parse failure of the overlap
    check and returns an error instead of a warning list. -/
theorem c9_validate_error_counterexample :
    (TopologyValidator.validate c9_bad_topology).isOk = false := by
  decide

/-- Unfold a positive `cidrParses` into its parsed components. -/
theorem cidrParses_elim {c : String} (h : cidrParses c = true) :
    ∃ ip pfx q n, splitOnChar '/' c.data = [ip, pfx] ∧ parseIpv4L ip = some q ∧
      parseNatBounded 255 pfx = some n := by
  unfold cidrParses at h
  split at h
  case h_1 ip pfx heq =>
    rw [Bool.and_eq_true] at h
    obtain ⟨hq, hn⟩ := h
    obtain ⟨q, hq⟩ := Option.isSome_iff_exists.mp hq
    obtain ⟨n, hn⟩ := Option.isSome_iff_exists.mp hn
    exact ⟨ip, pfx, q, n, heq, hq, hn⟩
  case h_2 => simp at h

/-- `cidrs_overlap` succeeds on two parseable CIDRs. -/
theorem cidrs_overlap_isOk {c1 c2 : String}
    (h1 : cidrParses c1 = true) (h2 : cidrParses c2 = true) :
    (TopologyValidator.cidrs_overlap c1 c2).isOk = true := by
  obtain ⟨ip1, pfx1, q1, n1, hs1, hq1, hn1⟩ := cidrParses_elim h1
  obtain ⟨ip2, pfx2, q2, n2, hs2, hq2, hn2⟩ := cidrParses_elim h2
  unfold TopologyValidator.cidrs_overlap
  rw [hs1, hs2]
  simp [hq1, hn1, hq2, hn2, Except.isOk, Except.toBool]

/-- The inner overlap loop succeeds when every CIDR involved parses. -/
theorem overlapsAgainst_isOk {nc : String × String} {l : List (String × String)}
    (hnc : cidrParses nc.2 = true) (hl : ∀ p ∈ l, cidrParses p.2 = true) :
    (TopologyValidator.overlapsAgainst nc l).isOk = true := by
  induction l with
  | nil => rfl
  | cons p rest ih =>
    have hc2 : cidrParses p.2 = true := hl _ (List.mem_cons_self _ _)
    have hrest : ∀ q ∈ rest, cidrParses q.2 = true :=
      fun q hq => hl q (List.mem_cons_of_mem _ hq)
    obtain ⟨b, hb⟩ := isOk_exists (cidrs_overlap_isOk hnc hc2)
    obtain ⟨ws, hws⟩ := isOk_exists (ih hrest)
    rcases p with ⟨n2, c2⟩
    simp only [TopologyValidator.overlapsAgainst, hb, hws, except_bind_ok]
    rfl

/-- The pairwise overlap loop succeeds when every collected CIDR parses. -/
theorem overlapPairs_isOk {l : List (String × String)}
    (hl : ∀ p ∈ l, cidrParses p.2 = true) :
    (TopologyValidator.overlapPairs l).isOk = true := by
  induction l with
  | nil => rfl
  | cons nc rest ih =>
    have h1 : cidrParses nc.2 = true := hl _ (List.mem_cons_self _ _)
    have hrest : ∀ q ∈ rest, cidrParses q.2 = true :=
      fun q hq => hl q (List.mem_cons_of_mem _ hq)
    obtain ⟨ws1, hws1⟩ := isOk_exists (overlapsAgainst_isOk h1 hrest)
    obtain ⟨ws2, hws2⟩ := isOk_exists (ih hrest)
    simp only [TopologyValidator.overlapPairs, hws1, hws2, except_bind_ok]
    rfl

/-- `check_cidr_overlaps` succeeds when every routed CIDR parses. -/
theorem check_cidr_overlaps_isOk {t : Topology} (h : routed_cidrs_parse t = true) :
    (TopologyValidator.check_cidr_overlaps t).isOk = true := by
  unfold TopologyValidator.check_cidr_overlaps
  have hstep :
      (fun (acc : List (String × String)) (e : String × Network) =>
        match e.2 with
        | Network.routed r => acc ++ [(e.1, r.cidr)]
        | _ => acc) =
      fun acc e => acc ++
        (match e.2 with
         | Network.routed r => [(e.1, r.cidr)]
         | _ => []) := by
    funext acc e
    rcases e with ⟨n, net⟩
    cases net <;> simp
  rw [hstep, foldl_append_eq_flatMap]
  apply overlapPairs_isOk
  intro p hp
  simp only [List.nil_append, List.mem_flatMap] at hp
  obtain ⟨e, he, hpe⟩ := hp
  rcases e with ⟨n, net⟩
  cases net with
  | routed r =>
    simp at hpe
    unfold routed_cidrs_parse at h
    rw [List.all_eq_true] at h
    have := h _ he
    simp at this
    rw [hpe]
    exact this
  | bridge b => simp at hpe
  | vxlan v => simp at hpe

/-- C9 (amended): `validate` returns a warning list (never an error, never
    a panic) for every topology whose routed CIDRs all parse as IPv4 with a
    u8 prefix; for malformed or IPv6 CIDRs among two or more routed
    networks it can instead return an error, as the counterexample shows.
    Severity is determined by variant: InvalidPort, InvalidDestination,
    InvalidCidr and GatewayNotInCidr are errors, CidrOverlap and
    DuplicateInterfaceName are advisories. -/
theorem c9_validator_amended :
    (∀ t : Topology, routed_cidrs_parse t = true →
      (TopologyValidator.validate t).isOk = true)
    ∧ (∀ n p r, (ValidationWarning.InvalidPort n p r).is_error = true)
    ∧ (∀ n d r, (ValidationWarning.InvalidDestination n d r).is_error = true)
    ∧ (∀ n c r, (ValidationWarning.InvalidCidr n c r).is_error = true)
    ∧ (∀ n g c r, (ValidationWarning.GatewayNotInCidr n g c r).is_error = true)
    ∧ (∀ a b c d, (ValidationWarning.CidrOverlap a b c d).is_error = false)
    ∧ (∀ n l, (ValidationWarning.DuplicateInterfaceName n l).is_error = false) := by
  refine ⟨?_, fun n p r => rfl, fun n d r => rfl, fun n c r => rfl,
    fun n g c r => rfl, fun a b c d => rfl, fun n l => rfl⟩
  intro t h
  obtain ⟨ws, hws⟩ := isOk_exists (check_cidr_overlaps_isOk h)
  simp only [TopologyValidator.validate, hws, except_bind_ok,
    TopologyValidator.validate_port_ranges, TopologyValidator.validate_ip_addresses,
    TopologyValidator.check_naming_conflicts, TopologyValidator.validate_network_references]
  rfl

/-- C9 witness: the amended totality applied to the S1 topology. -/
theorem c9_validator_amended_witness :
    routed_cidrs_parse s1_topology = true
    ∧ (TopologyValidator.validate s1_topology).isOk = true :=
  ⟨by decide, c9_validator_amended.1 s1_topology (by decide)⟩

/-- Bind on an error reduces to the error. -/
theorem except_bind_error {ε α β : Type} (e : ε) (f : α → Except ε β) :
    (Except.error e : Except ε α) >>= f = Except.error e := rfl

/-- An `Except` value that is not ok is an error. -/
theorem isOk_false_elim {ε α : Type} {e : Except ε α} (h : e.isOk = false) :
    ∃ x, e = Except.error x := by
  cases e with
  | ok a => simp [Except.isOk, Except.toBool] at h
  | error x => exact ⟨x, rfl⟩

/-- Mapping over an `Except` preserves ok-ness. -/
theorem except_map_isOk {ε α β : Type} (f : α → β) (e : Except ε α) :
    (Except.map f e).isOk = e.isOk := by
  cases e <;> rfl

/-- A forward whose protocol lowercases to neither tcp nor udp never
    parses: an unknown protocol fails in `ForwardProtocol::from_str` and
    icmp is rejected explicitly. -/
theorem forward_parse_bad_proto {pub dst : String} {ap : List Char} {proto : String}
    (hsp : split_proto pub = Except.ok (ap, proto))
    (htcp : asciiLowerStr proto ≠ "tcp") (hudp : asciiLowerStr proto ≠ "udp") :
    (ForwardRule.parse pub dst).isOk = false := by
  simp only [ForwardRule.parse, hsp, except_bind_ok]
  unfold ForwardProtocol.from_str
  split
  · next heq => exact absurd heq htcp
  · next heq => exact absurd heq hudp
  · rfl
  · rfl

/-- The fail-fast map fails when any element fails. -/
theorem exceptMapM_isOk_false {α β : Type} (f : α → Except String β) :
    ∀ (l : List α) (x : α), x ∈ l → (f x).isOk = false → (exceptMapM f l).isOk = false := by
  intro l
  induction l with
  | nil => intro x hx; simp at hx
  | cons y ys ih =>
    intro x hx hfx
    unfold exceptMapM
    cases hy : f y with
    | error e => rfl
    | ok b =>
      rcases List.mem_cons.mp hx with rfl | hx2
      · rw [hy] at hfx
        simp [Except.isOk, Except.toBool] at hfx
      · obtain ⟨e, he⟩ := isOk_false_elim (ih x hx2 hfx)
        simp only [he, except_bind_ok, except_bind_error]
        rfl

/-- `create_complete_ruleset` fails whenever its forward list fails to
    parse (whatever the other inputs do). -/
theorem create_complete_ruleset_isOk_false {table bridge cidr gw masq : String}
    {forwards : List (String × String)} {policy : Option PolicyProfile}
    (h : (parse_forward_rules forwards).isOk = false) :
    (create_complete_ruleset table bridge cidr gw masq forwards policy).isOk = false := by
  unfold create_complete_ruleset
  rw [except_map_isOk]
  unfold create_complete_ruleset_stmts
  cases hbn : parseIpNet cidr with
  | none => rfl
  | some bn =>
    cases hgw : parseIpAddr gw with
    | none => rfl
    | some g =>
      obtain ⟨e, he⟩ := isOk_false_elim h
      simp only [he, except_bind_ok, except_bind_error]
      rfl

/-- C10: ruleset synthesis only supports tcp and udp forwards. The
    validator accepts `sctp` in a port spec (and the sctp topology passes
    validation with no warnings at all), yet for any forward whose public
    spec carries a protocol that lowercases to neither `tcp` nor `udp`
    (sctp, icmp, anything else), `create_complete_ruleset` returns an
    error — so a topology can pass validation and still fail at apply time
    inside CreateNftRuleset. -/
theorem c10_unsupported_protocol_errors :
    TopologyValidator.validate_port_spec ":4022/sctp" = Except.ok ()
    ∧ TopologyValidator.validate sctp_topology = Except.ok []
    ∧ ∀ (table bridge cidr gw masq : String) (forwards : List (String × String))
        (policy : Option PolicyProfile) (pub dst : String) (ap : List Char) (proto : String),
        (pub, dst) ∈ forwards →
        split_proto pub = Except.ok (ap, proto) →
        asciiLowerStr proto ≠ "tcp" →
        asciiLowerStr proto ≠ "udp" →
        (create_complete_ruleset table bridge cidr gw masq forwards policy).isOk = false := by
  refine ⟨by decide, by decide, ?_⟩
  intro table bridge cidr gw masq forwards policy pub dst ap proto hmem hsp htcp hudp
  apply create_complete_ruleset_isOk_false
  unfold parse_forward_rules
  exact exceptMapM_isOk_false _ forwards (pub, dst) hmem (forward_parse_bad_proto hsp htcp hudp)

/-- C10 witness: the universal error statement applied to the sctp forward
    of the sctp topology. -/
theorem c10_unsupported_protocol_errors_witness :
    (create_complete_ruleset "gw-nat_dev" "br-nat_dev" "10.33.0.0/24" "10.33.0.1" "eth0"
      [(":4022/sctp", "10.33.0.10:22")] none).isOk = false :=
  c10_unsupported_protocol_errors.2.2 "gw-nat_dev" "br-nat_dev" "10.33.0.0/24" "10.33.0.1"
    "eth0" [(":4022/sctp", "10.33.0.10:22")] none ":4022/sctp" "10.33.0.10:22" ":4022".data
    "sctp" (by decide) (by decide) (by decide) (by decide)

/-- The accumulating rule loop is the fail-fast map prefixed with the
    accumulator. -/
theorem buildRules_eq_exceptMapM {α : Type} (f : α → Except String Json) :
    ∀ (l : List α) (acc : List Json),
      buildRules f acc l = (exceptMapM f l).map (fun rs => acc ++ rs) := by
  intro l
  induction l with
  | nil => intro acc; simp [buildRules, exceptMapM, Except.map]
  | cons x xs ih =>
    intro acc
    unfold buildRules exceptMapM
    cases hx : f x with
    | error e => rfl
    | ok r =>
      simp only [except_bind_ok, ih (acc ++ [r])]
      cases hxs : exceptMapM f xs with
      | error e => rfl
      | ok rs => simp [Except.map, except_bind_ok, List.append_assoc]

/-- The service rules are emitted one per declared service, in order. -/
theorem policy_service_rules_eq (table bridge : String) (p : PolicyProfile) :
    policy_service_rules table bridge p = exceptMapM (service_rule table bridge) p.services := by
  unfold policy_service_rules
  rw [buildRules_eq_exceptMapM]
  cases h : exceptMapM (service_rule table bridge) p.services <;> simp [Except.map]

/-- The ingress allow rules are emitted one per declared ingress CIDR, in
    order. -/
theorem policy_ingress_rules_eq (table bridge : String) (p : PolicyProfile) :
    policy_ingress_rules table bridge p =
      exceptMapM (ingress_rule table bridge) p.allowed_ingress_cidrs := by
  unfold policy_ingress_rules
  rw [buildRules_eq_exceptMapM]
  cases h : exceptMapM (ingress_rule table bridge) p.allowed_ingress_cidrs <;> simp [Except.map]

/-- The egress allow rules are emitted one per declared egress CIDR, in
    order. -/
theorem policy_egress_rules_eq (table bridge : String) (p : PolicyProfile) :
    policy_egress_rules table bridge p =
      exceptMapM (egress_rule table bridge) p.allowed_egress_cidrs := by
  unfold policy_egress_rules
  rw [buildRules_eq_exceptMapM]
  cases h : exceptMapM (egress_rule table bridge) p.allowed_egress_cidrs <;> simp [Except.map]

/-- C3: synthesis is deterministic — syntactically equal inputs give
    byte-identical pretty-printed JSON (the embedding is a pure function
    with no map iteration inside) — and the policy block emits services,
    ingress CIDRs and egress CIDRs by a fail-fast sequential map over each
    declared list, hence in declared list order. -/
theorem c3_deterministic_synthesis :
    (∀ (t1 b1 c1 g1 m1 : String) (f1 : List (String × String)) (p1 : Option PolicyProfile)
       (t2 b2 c2 g2 m2 : String) (f2 : List (String × String)) (p2 : Option PolicyProfile),
       t1 = t2 → b1 = b2 → c1 = c2 → g1 = g2 → m1 = m2 → f1 = f2 → p1 = p2 →
       create_complete_ruleset t1 b1 c1 g1 m1 f1 p1 =
         create_complete_ruleset t2 b2 c2 g2 m2 f2 p2)
    ∧ (∀ (table bridge : String) (p : PolicyProfile),
        policy_service_rules table bridge p = exceptMapM (service_rule table bridge) p.services)
    ∧ (∀ (table bridge : String) (p : PolicyProfile),
        policy_ingress_rules table bridge p =
          exceptMapM (ingress_rule table bridge) p.allowed_ingress_cidrs)
    ∧ (∀ (table bridge : String) (p : PolicyProfile),
        policy_egress_rules table bridge p =
          exceptMapM (egress_rule table bridge) p.allowed_egress_cidrs) := by
  refine ⟨?_, policy_service_rules_eq, policy_ingress_rules_eq, policy_egress_rules_eq⟩
  intro t1 b1 c1 g1 m1 f1 p1 t2 b2 c2 g2 m2 f2 p2 ht hb hc hg hm hf hp
  subst ht hb hc hg hm hf hp
  rfl

/-- C3 witness: the determinism clause applied at a concrete S1-shaped
    input pair. -/
theorem c3_deterministic_synthesis_witness :
    create_complete_ruleset "gw-nat_dev" "br-nat_dev" "10.33.0.0/24" "10.33.0.1" "eth0"
        [(":4022/tcp", "10.33.0.10:22")] none =
      create_complete_ruleset "gw-nat_dev" "br-nat_dev" "10.33.0.0/24" "10.33.0.1" "eth0"
        [(":4022/tcp", "10.33.0.10:22")] none :=
  c3_deterministic_synthesis.1 _ _ _ _ _ _ _ _ _ _ _ _ _ _ rfl rfl rfl rfl rfl rfl rfl

/-- C7: in every successfully synthesized complete ruleset, the `input` and
    `forward` base chains carry the policy mapped from the bound profile
    (accept for accept; drop for both drop and reject, with no terminal
    reject rule emitted; accept when no profile is bound), and the `output`
    chain always carries accept. -/
theorem c7_chain_policies (table bridge cidr gw masq : String)
    (forwards : List (String × String)) (policy : Option PolicyProfile)
    (stmts : List Json)
    (h : create_complete_ruleset_stmts table bridge cidr gw masq forwards policy =
      Except.ok stmts) :
    chain_policy stmts "input" = some (Json.str (spec_default_policy policy))
    ∧ chain_policy stmts "forward" = some (Json.str (spec_default_policy policy))
    ∧ chain_policy stmts "output" = some (Json.str "accept") := by
  unfold create_complete_ruleset_stmts at h
  cases hbn : parseIpNet cidr with
  | none =>
    rw [hbn] at h
    simp only [except_bind_ok, except_bind_error] at h
    exact Except.noConfusion h
  | some bn =>
    rw [hbn] at h
    cases hgw : parseIpAddr gw with
    | none =>
      rw [hgw] at h
      simp only [except_bind_ok, except_bind_error] at h
      exact Except.noConfusion h
    | some g =>
      rw [hgw] at h
      cases hpf : parse_forward_rules forwards with
      | error e =>
        rw [hpf] at h
        simp only [except_bind_ok, except_bind_error] at h
        exact Except.noConfusion h
      | ok pf =>
        rw [hpf] at h
        cases policy with
        | none =>
          simp only [except_bind_ok] at h
          injection h with h2
          subst h2
          exact ⟨rfl, rfl, rfl⟩
        | some p =>
          simp only [except_bind_ok, except_bind_error] at h
          cases hsvc : policy_service_rules table bridge p with
          | error e =>
            rw [hsvc] at h
            simp only [except_bind_ok, except_bind_error] at h
            exact Except.noConfusion h
          | ok svc =>
            rw [hsvc] at h
            simp only [except_bind_ok] at h
            cases hing : policy_ingress_rules table bridge p with
            | error e =>
              rw [hing] at h
              simp only [except_bind_ok, except_bind_error] at h
              exact Except.noConfusion h
            | ok ing =>
              rw [hing] at h
              simp only [except_bind_ok] at h
              cases hegr : policy_egress_rules table bridge p with
              | error e =>
                rw [hegr] at h
                simp only [except_bind_ok, except_bind_error] at h
                exact Except.noConfusion h
              | ok egr =>
                rw [hegr] at h
                simp only [except_bind_ok] at h
                injection h with h2
                subst h2
                cases hda : p.default_action <;>
                  simp [chain_policy, chainFields, assocLookup, spec_default_policy, hda,
                    base_table_definition, base_filter_chain, base_output_chain, chain_stmt]

/-- C7 witness: the chain policies of a concrete synthesized ruleset with
    no bound profile. -/
theorem c7_chain_policies_witness :
    chain_policy c7_example_stmts "input" = some (Json.str "accept")
    ∧ chain_policy c7_example_stmts "forward" = some (Json.str "accept")
    ∧ chain_policy c7_example_stmts "output" = some (Json.str "accept") :=
  c7_chain_policies "gw-x" "br-x" "10.33.0.0/24" "10.33.0.1" "eth0" [] none
    c7_example_stmts (by rfl)

end Ghostwarden
